import Mathlib

/-!
Verification of the Reepy response-normalization and metrics layer.

The Python source is shallowly embedded: JSON-like values become the
inductive type `Json` (numbers are modelled as rationals), pandas
DataFrames of normalized records become lists of structures, and Python
exceptions become `Except String`.  Python-level semantics that the code
relies on (truthiness, `in`, subscripting, `isinstance` dispatch,
iteration) are embedded as explicit functions faithful to CPython's
behaviour on JSON-decoded data.
-/

namespace Reepy

/-- A JSON-like Python value, as produced by `json.loads` / `response.json()`.
Numbers (`int` and `float`) are modelled as rationals. -/
inductive Json where
  | null : Json
  | bool (b : Bool) : Json
  | num (q : Rat) : Json
  | str (s : String) : Json
  | arr (elems : List Json) : Json
  | obj (fields : List (String × Json)) : Json

/-- Python truthiness (`if not data`): `None`, `False`, `0`, `""`, `[]`, `{}`
are falsy, everything else is truthy. -/
def Json.isTruthy : Json → Bool
  | .null => false
  | .bool b => b
  | .num q => !(q == 0)
  | .str s => !s.isEmpty
  | .arr xs => !xs.isEmpty
  | .obj kvs => !kvs.isEmpty

/-- Python `k in data` for a string `k`: key lookup on a dict, membership on a
list, substring test on a string; a `TypeError` on other values. -/
def Json.hasKey (data : Json) (k : String) : Except String Bool :=
  match data with
  | .obj kvs => .ok (kvs.any (fun kv => kv.1 == k))
  | .arr xs => .ok (xs.any (fun x => match x with | .str s => s == k | _ => false))
  | .str s => .ok (decide ((s.splitOn k).length > 1))
  | _ => .error "TypeError"

/-- Python `data[k]` for a string key `k`: dict lookup raising `KeyError` when
the key is absent, `TypeError` on any non-dict. -/
def Json.getItem : Json → String → Except String Json
  | .obj kvs, k =>
      match kvs.find? (fun kv => kv.1 == k) with
      | some kv => .ok kv.2
      | none => .error "KeyError"
  | _, _ => .error "TypeError"

/-- Python `for x in data`: a list yields its elements, a dict its keys, a
string its characters; other values raise `TypeError`. -/
def Json.iter : Json → Except String (List Json)
  | .arr xs => .ok xs
  | .obj kvs => .ok (kvs.map (fun kv => Json.str kv.1))
  | .str s => .ok (s.toList.map (fun c => Json.str (String.mk [c])))
  | _ => .error "TypeError"

/-- `True` for values matching Python `isinstance(v, (int, float))`
(booleans are `int` instances in Python). -/
def Json.isNumeric : Json → Bool
  | .num _ => true
  | .bool _ => true
  | _ => false

/-- Shapes the generation normalizer does not recognise (neither list, number,
bool nor dict): strings and nulls. -/
def Json.isUnrecognizedShape : Json → Bool
  | .str _ => true
  | .null => true
  | _ => false

/-- One row of the DataFrame built by `parse_generation_data`
(`src/ree_example.py`): the dict appended per record, fields verbatim. -/
structure Record where
  datetime : Json
  type : Json
  value : Json

/-- The inner loop of the typed-list branch of `parse_generation_data`: one
record per element, each element must supply `'type'` and `'value'`. -/
def mapRecords (d : Json) : List Json → Except String (List Record)
  | [] => .ok []
  | g :: gs => do
      let t ← g.getItem "type"
      let x ← g.getItem "value"
      let rest ← mapRecords d gs
      pure (Record.mk d t x :: rest)

/-- The loop body of `parse_generation_data` for a single element of `values`:
reads `value['datetime']` and `value['value']`, then dispatches on the shape
of the latter (`list` / `int, float` / `dict` / skip). -/
def processEntry (v : Json) : Except String (List Record) := do
  let d ← v.getItem "datetime"
  let vd ← v.getItem "value"
  match vd with
  | .arr elems => mapRecords d elems
  | .num _ => pure [Record.mk d (Json.str "total") vd]
  | .bool _ => pure [Record.mk d (Json.str "total") vd]
  | .obj kvs => pure (kvs.map (fun kv => Record.mk d (Json.str kv.1) kv.2))
  | _ => pure []

/-- The `for value in values` loop of `parse_generation_data`: records
accumulate in encounter order, an exception aborts the whole call. -/
def processValues : List Json → Except String (List Record)
  | [] => .ok []
  | v :: rest => do
      let recs ← processEntry v
      let tail ← processValues rest
      pure (recs ++ tail)

/-- `parse_generation_data` (`src/ree_example.py`, lines 66-104): returns an
empty table when `data` is falsy or has no `'indicator'` member, otherwise
reads `data['indicator']['values']` and iterates over it. -/
def parse_generation_data (data : Json) : Except String (List Record) :=
  if data.isTruthy = false then .ok []
  else
    match data.hasKey "indicator" with
    | .error e => .error e
    | .ok false => .ok []
    | .ok true => do
        let ind ← data.getItem "indicator"
        let values ← ind.getItem "values"
        let items ← values.iter
        processValues items

/-- One row of the DataFrame built by `parse_indicator_data`. -/
structure IndRecord where
  datetime : Json
  value : Json

/-- The `for value in values` loop of `parse_indicator_data`: one record per
entry, `datetime` and `value` read unconditionally. -/
def processIndicatorValues : List Json → Except String (List IndRecord)
  | [] => .ok []
  | v :: rest => do
      let d ← v.getItem "datetime"
      let x ← v.getItem "value"
      let tail ← processIndicatorValues rest
      pure (IndRecord.mk d x :: tail)

/-- `parse_indicator_data` (`src/ree_example.py`, lines 158-173): same
top-level guard as `parse_generation_data`, but no per-entry shape dispatch
at all. -/
def parse_indicator_data (data : Json) : Except String (List IndRecord) :=
  if data.isTruthy = false then .ok []
  else
    match data.hasKey "indicator" with
    | .error e => .error e
    | .ok false => .ok []
    | .ok true => do
        let ind ← data.getItem "indicator"
        let values ← ind.getItem "values"
        let items ← values.iter
        processIndicatorValues items

/-- A well-formed API response wrapping a list of value entries, as in the
repository's tests: `{"indicator": {"values": [...]}}`. -/
def mkResponse (vs : List Json) : Json :=
  Json.obj [("indicator", Json.obj [("values", Json.arr vs)])]

/-!
Metrics engine: `reepi/utils/data_processing.py`.  These functions consume
DataFrames whose rows carry a generation `type` and a numeric `value` (and,
for the daily average, a `datetime` string); they are embedded as lists of
typed rows, numbers as rationals.
-/

/-- A row of a generation DataFrame as consumed by
`calculate_renewable_percentage` and `aggregate_by_type`: the `type` and
`value` columns. -/
structure GenRow where
  type : String
  value : Rat
deriving DecidableEq

/-- The `renewable_types` list of `calculate_renewable_percentage`, verbatim. -/
def renewable_types : List String :=
  ["Hydro", "Wind", "Solar PV", "Solar thermal", "Hydroeólica",
   "Geothermal", "Biomass", "Other renewables"]

/-- `df['value'].sum()` over a generation DataFrame. -/
def valueSum (df : List GenRow) : Rat :=
  (df.map (fun r => r.value)).sum

/-- `df[df['type'].isin(renewable_types)]['value'].sum()`. -/
def renewableSum (df : List GenRow) : Rat :=
  valueSum (df.filter (fun r => renewable_types.contains r.type))

/-- `calculate_renewable_percentage` (`reepi/utils/data_processing.py`,
lines 25-50): empty guard, zero-total guard, otherwise
`renewable_sum / total_sum * 100.0`. -/
def calculate_renewable_percentage (df : List GenRow) : Rat :=
  if df.isEmpty then 0
  else if valueSum df = 0 then 0
  else renewableSum df / valueSum df * 100

/-- Sum of the `value` column over the rows of one `type` group. -/
def sumForType (t : String) (df : List GenRow) : Rat :=
  valueSum (df.filter (fun r => r.type == t))

/-- The distinct elements of a list (one representative per value; which
occurrence is kept is irrelevant, the callers sort afterwards). -/
def distinct {α : Type} [DecidableEq α] : List α → List α
  | [] => []
  | x :: xs => if x ∈ xs then distinct xs else x :: distinct xs

/-- Lexicographic strict order on lists of characters, by code point — the
order Python (and hence pandas) uses to compare strings. -/
def strLTb : List Char → List Char → Bool
  | [], [] => false
  | [], _ :: _ => true
  | _ :: _, [] => false
  | a :: as, b :: bs =>
      if a.toNat < b.toNat then true
      else if b.toNat < a.toNat then false
      else strLTb as bs

/-- `a ≤ b` on strings, as the negation of `b < a` in the lexicographic
order. -/
def strLE (a b : String) : Bool := !(strLTb b.data a.data)

/-- The `≤` relation `List.insertionSort` is run with. -/
def strLEProp (a b : String) : Prop := strLE a b = true

instance : DecidableRel strLEProp := fun a b => by
  unfold strLEProp; infer_instance

/-- The group keys of `df.groupby('type')`: the distinct values of the
`type` column, sorted ascending (pandas sorts group keys by default). -/
def sortedTypes (df : List GenRow) : List String :=
  (distinct (df.map (fun r => r.type))).insertionSort strLEProp

/-- `aggregate_by_type` (`reepi/utils/data_processing.py`, lines 52-66):
`df.groupby('type')['value'].sum().reset_index()` — one output row per
distinct `type`, rows ordered by the sorted group keys. -/
def aggregate_by_type (df : List GenRow) : List GenRow :=
  if df.isEmpty then df
  else (sortedTypes df).map (fun t => GenRow.mk t (sumForType t df))

/-- A row of a time-series DataFrame as consumed by
`calculate_daily_average`: `datetime` (still a string), `type`, `value`. -/
structure TsRow where
  datetime : String
  type : String
  value : Rat
deriving DecidableEq

/-- A calendar date as `(year, month, day)`. -/
abbrev Date := Nat × Nat × Nat

/-- Model of `pd.to_datetime` on one string, restricted to ISO-8601-style
values (`YYYY-MM-DD`, optionally followed by a `T` or space and a time):
returns the calendar date, or `none` when the string is not parseable as a
date-time (in which case `pd.to_datetime` raises). -/
def parseTimestamp (s : String) : Option Date :=
  match s.toList with
  | y1 :: y2 :: y3 :: y4 :: c1 :: m1 :: m2 :: c2 :: d1 :: d2 :: rest =>
      if y1.isDigit && y2.isDigit && y3.isDigit && y4.isDigit &&
         (c1 == '-') && m1.isDigit && m2.isDigit &&
         (c2 == '-') && d1.isDigit && d2.isDigit then
        let year := 1000 * (y1.toNat - 48) + 100 * (y2.toNat - 48) +
          10 * (y3.toNat - 48) + (y4.toNat - 48)
        let month := 10 * (m1.toNat - 48) + (m2.toNat - 48)
        let day := 10 * (d1.toNat - 48) + (d2.toNat - 48)
        let sepOk := match rest with
          | [] => true
          | c :: _ => c == 'T' || c == ' '
        if 1 ≤ month && month ≤ 12 && 1 ≤ day && day ≤ 31 && sepOk then
          some (year, month, day)
        else none
      else none
  | _ => none

/-- A row of the DataFrame after `pd.to_datetime` conversion and `.dt.date`
extraction: the calendar date, `type`, `value`. -/
structure DayRow where
  date : Date
  type : String
  value : Rat
deriving DecidableEq

/-- `format_datetime` (`reepi/utils/data_processing.py`, lines 9-23) applied
to a DataFrame that has the `datetime` column: converts every timestamp with
`pd.to_datetime`, raising as soon as one is unparseable. -/
def format_datetime : List TsRow → Except String (List DayRow)
  | [] => .ok []
  | r :: rest =>
      match parseTimestamp r.datetime with
      | none => .error "DateParseError"
      | some d => do
          let tail ← format_datetime rest
          pure (DayRow.mk d r.type r.value :: tail)

/-- Lexicographic order on the `(date, type)` group keys of
`df.groupby(['date', 'type'])`. -/
def dayKeyLE (a b : Date × String) : Prop :=
  a.1.1 < b.1.1 ∨ (a.1.1 = b.1.1 ∧ (a.1.2.1 < b.1.2.1 ∨ (a.1.2.1 = b.1.2.1 ∧
    (a.1.2.2 < b.1.2.2 ∨ (a.1.2.2 = b.1.2.2 ∧ strLEProp a.2 b.2)))))

instance : DecidableRel dayKeyLE := fun a b => by
  unfold dayKeyLE; infer_instance

/-- Sum of the `value` column over a group of date-level rows. -/
def daySum (grp : List DayRow) : Rat :=
  (grp.map (fun r => r.value)).sum

/-- `calculate_daily_average` (`reepi/utils/data_processing.py`, lines
68-88): converts the `datetime` column (raising on an unparseable
timestamp), extracts the calendar date, then
`groupby(['date', 'type'])['value'].mean()` over sorted group keys. -/
def calculate_daily_average (df : List TsRow) : Except String (List DayRow) := do
  let p ← format_datetime df
  if p.isEmpty then return []
  let keys := (distinct (p.map (fun r => (r.date, r.type)))).insertionSort dayKeyLE
  return keys.map (fun k =>
    let grp := p.filter (fun r => r.date == k.1 && r.type == k.2)
    DayRow.mk k.1 k.2 (daySum grp / (grp.length : Rat)))

/-- The generation table of the renewable-percentage test
(`tests/test_reepi.py`): Wind 200, Solar PV 100, Nuclear 400, Coal 300. -/
def exampleMix : List GenRow :=
  [GenRow.mk "Wind" 200, GenRow.mk "Solar PV" 100,
   GenRow.mk "Nuclear" 400, GenRow.mk "Coal" 300]

/-- The generation table of the aggregation test (`tests/test_reepi.py`):
two Wind rows and two Solar PV rows. -/
def exampleAgg : List GenRow :=
  [GenRow.mk "Wind" 100, GenRow.mk "Wind" 150,
   GenRow.mk "Solar PV" 200, GenRow.mk "Solar PV" 250]

/-- Helper for `specFirstOccurrenceOrder`: keeps the elements not seen yet,
in input order. -/
def firstOccAux : List String → List String → List String
  | [], _ => []
  | s :: ss, seen =>
      if s ∈ seen then firstOccAux ss seen else s :: firstOccAux ss (s :: seen)

/-- Spec-side definition, following the spec's words: the distinct categories
listed in order of their first occurrence in the input (the iteration order
the spec asserts for `aggregate_by_category`). -/
def specFirstOccurrenceOrder (l : List String) : List String :=
  firstOccAux l []

/-!
Helper lemmas about the normalizer.
-/

theorem getItem_pair_datetime (d v : Json) :
    (Json.obj [("datetime", d), ("value", v)]).getItem "datetime" = Except.ok d := rfl

theorem getItem_pair_value (d v : Json) :
    (Json.obj [("datetime", d), ("value", v)]).getItem "value" = Except.ok v := rfl

theorem getItem_typed_type (t v : Json) :
    (Json.obj [("type", t), ("value", v)]).getItem "type" = Except.ok t := rfl

theorem getItem_typed_value (t v : Json) :
    (Json.obj [("type", t), ("value", v)]).getItem "value" = Except.ok v := rfl

/-- On a well-formed response wrapper the normalizer reduces to its per-entry
loop. -/
theorem parse_generation_data_mkResponse (vs : List Json) :
    parse_generation_data (mkResponse vs) = processValues vs := rfl

/-- On a well-formed response wrapper the scalar-series parser reduces to its
per-entry loop. -/
theorem parse_indicator_data_mkResponse (vs : List Json) :
    parse_indicator_data (mkResponse vs) = processIndicatorValues vs := rfl

/-- An entry whose `value` field has unrecognized shape is processed to zero
records without an error. -/
theorem processEntry_unrecognized (d bad : Json) (h : bad.isUnrecognizedShape = true) :
    processEntry (Json.obj [("datetime", d), ("value", bad)]) = Except.ok [] := by
  cases bad with
  | str s => rfl
  | null => rfl
  | bool b => exact Bool.noConfusion h
  | num q => exact Bool.noConfusion h
  | arr xs => exact Bool.noConfusion h
  | obj kvs => exact Bool.noConfusion h

/-- Deleting from the values sequence an entry that processes to zero records
does not change the result of the loop. -/
theorem processValues_skip (pre post : List Json) (e : Json)
    (he : processEntry e = Except.ok []) :
    processValues (pre ++ e :: post) = processValues (pre ++ post) := by
  induction pre with
  | nil =>
      simp only [List.nil_append, processValues, he]
      cases hpv : processValues post with
      | error e2 => simp [hpv, Bind.bind, Except.bind]
      | ok l => simp [hpv, Bind.bind, Except.bind, Pure.pure, Except.pure]
  | cons x xs ih =>
      simp only [List.cons_append, processValues, List.append_eq, ih]

/-- Claim C1 (corrected): the normalizer returns an empty table without
raising when the input is falsy (`None`, `{}`, ...), when it is a dict
without the `'indicator'` key, or when the values sequence is empty; but an
input that has `'indicator'` without `'values'` — which also lacks the
indicator-values path — raises a `KeyError` instead of returning an empty
table. -/
theorem normalize_empty_table_guards (data : Json) (kvs : List (String × Json))
    (h1 : data.isTruthy = false)
    (h2 : kvs.any (fun kv => kv.1 == "indicator") = false) :
    parse_generation_data data = Except.ok [] ∧
    parse_generation_data (Json.obj kvs) = Except.ok [] ∧
    parse_generation_data (mkResponse []) = Except.ok [] ∧
    parse_generation_data (Json.obj [("indicator", Json.obj [])]) =
      Except.error "KeyError" := by
  refine ⟨?_, ?_, rfl, rfl⟩
  · simp [parse_generation_data, h1]
  · cases kvs with
    | nil => rfl
    | cons kv rest =>
        simp [parse_generation_data, Json.isTruthy, Json.hasKey, h2]

theorem normalize_empty_table_guards_witness :
    Json.null.isTruthy = false ∧
    ([("foo", Json.null)].any (fun kv => kv.1 == "indicator") = false) ∧
    (parse_generation_data Json.null = Except.ok [] ∧
     parse_generation_data (Json.obj [("foo", Json.null)]) = Except.ok [] ∧
     parse_generation_data (mkResponse []) = Except.ok [] ∧
     parse_generation_data (Json.obj [("indicator", Json.obj [])]) =
       Except.error "KeyError") :=
  ⟨rfl, rfl, normalize_empty_table_guards Json.null [("foo", Json.null)] rfl rfl⟩

/-- Claim C1, counterexample: an input that lacks the indicator-values path
(`'indicator'` is present but has no `'values'` member) makes the normalizer
raise a `KeyError`; it does not return an empty table. -/
theorem normalize_missing_values_key_raises :
    parse_generation_data (Json.obj [("indicator", Json.obj [])]) =
      Except.error "KeyError" ∧
    parse_generation_data (Json.obj [("indicator", Json.obj [])]) ≠
      Except.ok [] :=
  ⟨rfl, fun h => Except.noConfusion h⟩

/-- Claim C2 (confirmed): an entry whose `value` field is present but of an
unrecognized shape (a string or a null) is skipped: the normalizer returns
exactly what it returns on the same response without that entry, so all
other (valid) entries are still emitted and the batch is not dropped, and no
error arises from that entry. -/
theorem normalize_skips_unrecognized_entry (pre post : List Json) (d bad : Json)
    (h : bad.isUnrecognizedShape = true) :
    parse_generation_data
      (mkResponse (pre ++ Json.obj [("datetime", d), ("value", bad)] :: post)) =
    parse_generation_data (mkResponse (pre ++ post)) := by
  rw [parse_generation_data_mkResponse, parse_generation_data_mkResponse]
  exact processValues_skip pre post _ (processEntry_unrecognized d bad h)

theorem normalize_skips_unrecognized_entry_witness :
    (Json.str "oops").isUnrecognizedShape = true ∧
    parse_generation_data (mkResponse
      ([Json.obj [("datetime", Json.str "t0"), ("value", Json.num 1)]] ++
        Json.obj [("datetime", Json.str "t1"), ("value", Json.str "oops")] ::
        [Json.obj [("datetime", Json.str "t2"), ("value", Json.num 2)]])) =
    parse_generation_data (mkResponse
      ([Json.obj [("datetime", Json.str "t0"), ("value", Json.num 1)]] ++
        [Json.obj [("datetime", Json.str "t2"), ("value", Json.num 2)]])) :=
  ⟨rfl, normalize_skips_unrecognized_entry
    [Json.obj [("datetime", Json.str "t0"), ("value", Json.num 1)]]
    [Json.obj [("datetime", Json.str "t2"), ("value", Json.num 2)]]
    (Json.str "t1") (Json.str "oops") rfl⟩

/-- Claim C3 (confirmed): a response of N entries whose `value` fields are
plain numbers normalizes to exactly N records, in order, each with category
`"total"` and the entry's number as value (extra fields on an entry are
ignored). -/
theorem normalize_scalar_entries (ps : List (Json × Rat × List (String × Json))) :
    parse_generation_data (mkResponse (ps.map (fun p =>
      Json.obj (("datetime", p.1) :: ("value", Json.num p.2.1) :: p.2.2)))) =
    Except.ok (ps.map (fun p => Record.mk p.1 (Json.str "total") (Json.num p.2.1))) := by
  rw [parse_generation_data_mkResponse]
  induction ps with
  | nil => rfl
  | cons p ps ih =>
      have hentry : processEntry
          (Json.obj (("datetime", p.1) :: ("value", Json.num p.2.1) :: p.2.2)) =
          Except.ok [Record.mk p.1 (Json.str "total") (Json.num p.2.1)] := rfl
      simp [processValues, hentry, ih, Bind.bind, Except.bind, Pure.pure, Except.pure]

/-- The element-level loop of the typed-list branch maps each
`{type, value}` element to one record. -/
theorem mapRecords_typed_elems (d : Json) (elems : List (Json × Json)) :
    mapRecords d (elems.map (fun e => Json.obj [("type", e.1), ("value", e.2)])) =
    Except.ok (elems.map (fun e => Record.mk d e.1 e.2)) := by
  induction elems with
  | nil => rfl
  | cons e es ih =>
      simp [mapRecords, ih, getItem_typed_type, getItem_typed_value,
        Bind.bind, Except.bind, Pure.pure, Except.pure]

/-- Claim C4 (confirmed): an entry whose `value` field is a list of
`{type, value}` elements normalizes to exactly one record per element, in
element order, with the element's `type` as category and its `value` as
value. -/
theorem normalize_typed_list_entry (d : Json) (elems : List (Json × Json)) :
    parse_generation_data (mkResponse [Json.obj [("datetime", d),
      ("value", Json.arr (elems.map (fun e => Json.obj [("type", e.1), ("value", e.2)])))]]) =
    Except.ok (elems.map (fun e => Record.mk d e.1 e.2)) := by
  rw [parse_generation_data_mkResponse]
  simp [processValues, processEntry, getItem_pair_datetime, getItem_pair_value,
    mapRecords_typed_elems, Bind.bind, Except.bind, Pure.pure, Except.pure]

/-!
Helper lemmas for the lexicographic string order used by the sorting of
group keys.
-/

theorem strLTb_asymm : ∀ as bs, strLTb as bs = true → strLTb bs as = false := by
  intro as
  induction as with
  | nil =>
      intro bs h
      cases bs with
      | nil => exact Bool.noConfusion h
      | cons b bs => rfl
  | cons a as ih =>
      intro bs h
      cases bs with
      | nil => exact Bool.noConfusion h
      | cons b bs =>
          by_cases h1 : a.toNat < b.toNat
          · simp [strLTb, h1, Nat.lt_asymm h1]
          · by_cases h2 : b.toNat < a.toNat
            · simp [strLTb, h1, h2] at h
            · simp [strLTb, h1, h2] at h ⊢
              exact ih bs h

theorem strLTb_trans :
    ∀ as bs cs, strLTb as bs = true → strLTb bs cs = true → strLTb as cs = true := by
  intro as
  induction as with
  | nil =>
      intro bs cs h1 h2
      cases bs with
      | nil => exact Bool.noConfusion h1
      | cons b bs =>
          cases cs with
          | nil => exact Bool.noConfusion h2
          | cons c cs => rfl
  | cons a as ih =>
      intro bs cs h1 h2
      cases bs with
      | nil => exact Bool.noConfusion h1
      | cons b bs =>
          cases cs with
          | nil => exact Bool.noConfusion h2
          | cons c cs =>
              by_cases hab : a.toNat < b.toNat
              · by_cases hbc : b.toNat < c.toNat
                · have hac : a.toNat < c.toNat := Nat.lt_trans hab hbc
                  simp [strLTb, hac]
                · by_cases hcb : c.toNat < b.toNat
                  · simp [strLTb, hbc, hcb] at h2
                  · have hac : a.toNat < c.toNat := by omega
                    simp [strLTb, hac]
              · by_cases hba : b.toNat < a.toNat
                · simp [strLTb, hab, hba] at h1
                · simp [strLTb, hab, hba] at h1
                  by_cases hbc : b.toNat < c.toNat
                  · have hac : a.toNat < c.toNat := by omega
                    simp [strLTb, hac]
                  · by_cases hcb : c.toNat < b.toNat
                    · simp [strLTb, hbc, hcb] at h2
                    · simp [strLTb, hbc, hcb] at h2
                      have hac1 : ¬ a.toNat < c.toNat := by omega
                      have hac2 : ¬ c.toNat < a.toNat := by omega
                      simp [strLTb, hac1, hac2]
                      exact ih bs cs h1 h2

theorem strLTb_eq_of_not_lt :
    ∀ as bs, strLTb as bs = false → strLTb bs as = false → as = bs := by
  intro as
  induction as with
  | nil =>
      intro bs h1 h2
      cases bs with
      | nil => rfl
      | cons b bs => exact Bool.noConfusion h1
  | cons a as ih =>
      intro bs h1 h2
      cases bs with
      | nil => exact Bool.noConfusion h2
      | cons b bs =>
          by_cases hab : a.toNat < b.toNat
          · simp [strLTb, hab] at h1
          · by_cases hba : b.toNat < a.toNat
            · simp [strLTb, hba] at h2
            · have hn : a.toNat = b.toNat := by omega
              have hc : a = b := Char.ext (UInt32.ext hn)
              simp [strLTb, hab, hba] at h1 h2
              rw [hc, ih bs h1 h2]

theorem strLE_total (a b : String) : strLEProp a b ∨ strLEProp b a := by
  unfold strLEProp strLE
  by_cases h : strLTb b.data a.data = true
  · right
    simp [strLTb_asymm _ _ h]
  · left
    simp [Bool.not_eq_true] at h
    simp [h]

theorem strLE_trans (a b c : String) :
    strLEProp a b → strLEProp b c → strLEProp a c := by
  unfold strLEProp strLE
  intro h1 h2
  simp only [Bool.not_eq_true', Bool.not_eq_false] at h1 h2 ⊢
  by_contra hca
  simp only [Bool.not_eq_false] at hca
  by_cases hab : strLTb a.data b.data = true
  · have hcb : strLTb c.data b.data = true := strLTb_trans _ _ _ hca hab
    rw [hcb] at h2
    exact Bool.noConfusion h2
  · simp only [Bool.not_eq_true] at hab
    have heq : a.data = b.data := strLTb_eq_of_not_lt _ _ hab h1
    rw [heq] at hca
    rw [hca] at h2
    exact Bool.noConfusion h2

theorem mem_distinct {α : Type} [DecidableEq α] (l : List α) (a : α) :
    a ∈ distinct l ↔ a ∈ l := by
  induction l with
  | nil => simp [distinct]
  | cons x xs ih =>
      by_cases hx : x ∈ xs
      · simp only [distinct, if_pos hx, ih, List.mem_cons]
        constructor
        · exact Or.inr
        · rintro (rfl | h)
          · exact hx
          · exact h
      · simp [distinct, if_neg hx, ih, List.mem_cons]

theorem nodup_distinct {α : Type} [DecidableEq α] (l : List α) :
    (distinct l).Nodup := by
  induction l with
  | nil => simp [distinct]
  | cons x xs ih =>
      by_cases hx : x ∈ xs
      · simpa [distinct, if_pos hx] using ih
      · simp only [distinct, if_neg hx, List.nodup_cons, mem_distinct]
        exact ⟨hx, ih⟩

/-!
Helper evaluations on the concrete test tables.
-/

theorem valueSum_exampleMix : valueSum exampleMix = 1000 := by
  norm_num [valueSum, exampleMix]

theorem renewableSum_exampleMix : renewableSum exampleMix = 300 := by
  have hfil : List.filter (fun r => renewable_types.contains r.type) exampleMix =
      [GenRow.mk "Wind" 200, GenRow.mk "Solar PV" 100] := by decide
  rw [renewableSum, exampleMix] at *
  rw [hfil]
  norm_num [valueSum]

theorem aggregate_exampleAgg :
    aggregate_by_type exampleAgg =
      [GenRow.mk "Solar PV" 450, GenRow.mk "Wind" 250] := by
  have hsort : sortedTypes exampleAgg = ["Solar PV", "Wind"] := by decide
  have hf1 : List.filter (fun r => r.type == "Solar PV") exampleAgg =
      [GenRow.mk "Solar PV" 200, GenRow.mk "Solar PV" 250] := by decide
  have hf2 : List.filter (fun r => r.type == "Wind") exampleAgg =
      [GenRow.mk "Wind" 100, GenRow.mk "Wind" 150] := by decide
  have hs1 : sumForType "Solar PV" exampleAgg = 450 := by
    rw [sumForType, hf1]; norm_num [valueSum]
  have hs2 : sumForType "Wind" exampleAgg = 250 := by
    rw [sumForType, hf2]; norm_num [valueSum]
  rw [aggregate_by_type, if_neg (by decide : ¬(exampleAgg.isEmpty = true)), hsort]
  simp only [List.map_cons, List.map_nil, hs1, hs2]

/-- Claim C5 (confirmed): on any table whose total value sum is nonzero, the
renewable share is the sum over records with a renewable category divided by
the total sum, times 100; on the Wind 200 / Solar PV 100 / Nuclear 400 /
Coal 300 table it is exactly 30. -/
theorem renewable_share_formula (df : List GenRow) (h : valueSum df ≠ 0) :
    calculate_renewable_percentage df = renewableSum df / valueSum df * 100 ∧
    calculate_renewable_percentage exampleMix = 30 := by
  constructor
  · cases df with
    | nil => exact absurd rfl h
    | cons r rest =>
        simp [calculate_renewable_percentage, h]
  · rw [calculate_renewable_percentage, if_neg (by decide : ¬(exampleMix.isEmpty = true)),
      valueSum_exampleMix, renewableSum_exampleMix]
    norm_num

theorem renewable_share_formula_witness :
    valueSum exampleMix ≠ 0 ∧
    (calculate_renewable_percentage exampleMix =
        renewableSum exampleMix / valueSum exampleMix * 100 ∧
      calculate_renewable_percentage exampleMix = 30) :=
  ⟨by rw [valueSum_exampleMix]; norm_num,
   renewable_share_formula exampleMix (by rw [valueSum_exampleMix]; norm_num)⟩

/-- Claim C6 (confirmed): the renewable share is exactly 0 on the empty
table and on every table whose total value sum is exactly zero — a defined
zero result, not a division error. -/
theorem renewable_share_zero_total (df : List GenRow) (h : valueSum df = 0) :
    calculate_renewable_percentage [] = 0 ∧
    calculate_renewable_percentage df = 0 := by
  refine ⟨rfl, ?_⟩
  cases df with
  | nil => rfl
  | cons r rest => simp [calculate_renewable_percentage, h]

theorem renewable_share_zero_total_witness :
    valueSum [GenRow.mk "Wind" 100, GenRow.mk "Coal" (-100)] = 0 ∧
    (calculate_renewable_percentage [] = 0 ∧
      calculate_renewable_percentage [GenRow.mk "Wind" 100, GenRow.mk "Coal" (-100)] = 0) :=
  ⟨by norm_num [valueSum],
   renewable_share_zero_total [GenRow.mk "Wind" 100, GenRow.mk "Coal" (-100)]
     (by norm_num [valueSum])⟩

/-- Claim C7, counterexample: on the Wind/Wind/Solar PV/Solar PV table the
aggregation yields the sums {Solar PV: 450, Wind: 250}, but its output order
is Solar PV before Wind — ascending by category name — while the order of
first occurrence in the input is Wind before Solar PV, so the claimed
first-occurrence iteration order is wrong. -/
theorem aggregate_order_counterexample :
    aggregate_by_type exampleAgg = [GenRow.mk "Solar PV" 450, GenRow.mk "Wind" 250] ∧
    specFirstOccurrenceOrder (exampleAgg.map (fun r => r.type)) = ["Wind", "Solar PV"] ∧
    (aggregate_by_type exampleAgg).map (fun r => r.type) ≠
      specFirstOccurrenceOrder (exampleAgg.map (fun r => r.type)) := by
  refine ⟨aggregate_exampleAgg, by decide, ?_⟩
  rw [aggregate_exampleAgg]
  decide

/-- Claim C7 (corrected): the aggregation maps each distinct category to the
sum of the values of that category's records — on the test table
{Wind: 250, Solar PV: 450} — but its output order is ascending by category
name (pandas `groupby` sorts its keys), not order of first occurrence. -/
theorem aggregate_by_type_grouped_sorted (df : List GenRow) (h : df ≠ []) :
    ((aggregate_by_type df).map (fun r => r.type)).Sorted strLEProp ∧
    ((aggregate_by_type df).map (fun r => r.type)).Nodup ∧
    (∀ c, c ∈ (aggregate_by_type df).map (fun r => r.type) ↔ c ∈ df.map (fun r => r.type)) ∧
    (∀ r, r ∈ aggregate_by_type df → r.value = sumForType r.type df) ∧
    aggregate_by_type exampleAgg = [GenRow.mk "Solar PV" 450, GenRow.mk "Wind" 250] := by
  obtain ⟨x, xs, rfl⟩ := List.exists_cons_of_ne_nil h
  have hmap : (aggregate_by_type (x :: xs)).map (fun r => r.type) =
      sortedTypes (x :: xs) := by
    simp only [aggregate_by_type, List.isEmpty_cons, Bool.false_eq_true, if_false,
      List.map_map]
    simp [Function.comp_def]
  haveI : IsTotal String strLEProp := ⟨strLE_total⟩
  haveI : IsTrans String strLEProp := ⟨strLE_trans⟩
  refine ⟨?_, ?_, ?_, ?_, aggregate_exampleAgg⟩
  · rw [hmap]
    exact List.sorted_insertionSort strLEProp _
  · rw [hmap]
    exact ((List.perm_insertionSort strLEProp _).nodup_iff).mpr (nodup_distinct _)
  · intro c
    rw [hmap]
    unfold sortedTypes
    rw [(List.perm_insertionSort strLEProp _).mem_iff, mem_distinct]
  · intro r hr
    simp only [aggregate_by_type, List.isEmpty_cons, Bool.false_eq_true, if_false,
      List.mem_map] at hr
    obtain ⟨t, ht, rfl⟩ := hr
    rfl

theorem aggregate_by_type_grouped_sorted_witness :
    exampleAgg ≠ [] ∧
    (((aggregate_by_type exampleAgg).map (fun r => r.type)).Sorted strLEProp ∧
     ((aggregate_by_type exampleAgg).map (fun r => r.type)).Nodup ∧
     (∀ c, c ∈ (aggregate_by_type exampleAgg).map (fun r => r.type) ↔
        c ∈ exampleAgg.map (fun r => r.type)) ∧
     (∀ r, r ∈ aggregate_by_type exampleAgg → r.value = sumForType r.type exampleAgg) ∧
     aggregate_by_type exampleAgg = [GenRow.mk "Solar PV" 450, GenRow.mk "Wind" 250]) :=
  ⟨by decide, aggregate_by_type_grouped_sorted exampleAgg (by decide)⟩

/-!
Helper lemmas for the daily-average error behaviour.
-/

/-- The datetime conversion raises as soon as some row's timestamp is
unparseable. -/
theorem format_datetime_error (df : List TsRow)
    (h : ∃ r ∈ df, parseTimestamp r.datetime = none) :
    ∃ e, format_datetime df = Except.error e := by
  induction df with
  | nil => simp at h
  | cons r rest ih =>
      obtain ⟨w, hw, hpw⟩ := h
      rcases List.mem_cons.mp hw with rfl | hmem
      · exact ⟨"DateParseError", by simp [format_datetime, hpw]⟩
      · cases hd : parseTimestamp r.datetime with
        | none => exact ⟨"DateParseError", by simp [format_datetime, hd]⟩
        | some d =>
            obtain ⟨e, he⟩ := ih ⟨w, hmem, hpw⟩
            exact ⟨e, by simp [format_datetime, hd, he, Bind.bind, Except.bind]⟩

/-- Claim C8 (confirmed): on a table containing a record whose timestamp is
not parseable as a date-time, the daily average raises an error propagated
to the caller; the normalizer, by contrast, passes such timestamps through
as strings without failing. -/
theorem daily_average_unparseable_raises (df : List TsRow)
    (h : ∃ r ∈ df, parseTimestamp r.datetime = none) :
    (∃ e, calculate_daily_average df = Except.error e) ∧
    parse_generation_data (mkResponse
      [Json.obj [("datetime", Json.str "not-a-date"), ("value", Json.num 5)]]) =
      Except.ok [Record.mk (Json.str "not-a-date") (Json.str "total") (Json.num 5)] ∧
    parseTimestamp "not-a-date" = none := by
  obtain ⟨e, he⟩ := format_datetime_error df h
  exact ⟨⟨e, by simp [calculate_daily_average, he, Bind.bind, Except.bind]⟩, rfl, rfl⟩

theorem daily_average_unparseable_raises_witness :
    (∃ r ∈ [TsRow.mk "not-a-date" "Wind" 100], parseTimestamp r.datetime = none) ∧
    ((∃ e, calculate_daily_average [TsRow.mk "not-a-date" "Wind" 100] = Except.error e) ∧
     parse_generation_data (mkResponse
       [Json.obj [("datetime", Json.str "not-a-date"), ("value", Json.num 5)]]) =
       Except.ok [Record.mk (Json.str "not-a-date") (Json.str "total") (Json.num 5)] ∧
     parseTimestamp "not-a-date" = none) :=
  ⟨⟨TsRow.mk "not-a-date" "Wind" 100, List.mem_singleton.mpr rfl, rfl⟩,
   daily_average_unparseable_raises [TsRow.mk "not-a-date" "Wind" 100]
     ⟨TsRow.mk "not-a-date" "Wind" 100, List.mem_singleton.mpr rfl, rfl⟩⟩

/-- Claim C9, counterexample: a typed-list element carrying the string
`"oops"` as its value is normalized into a record whose value is that
non-numeric string — the entry is neither rejected nor skipped. -/
theorem normalize_emits_non_numeric_value :
    parse_generation_data (mkResponse [Json.obj [("datetime", Json.str "2023-01-01T00:00:00"),
      ("value", Json.arr [Json.obj [("type", Json.str "Wind"), ("value", Json.str "oops")]])]]) =
      Except.ok [Record.mk (Json.str "2023-01-01T00:00:00") (Json.str "Wind")
        (Json.str "oops")] ∧
    (Json.str "oops").isNumeric = false :=
  ⟨rfl, rfl⟩

/-- Claim C9 (corrected): only the scalar branch of the normalizer checks
that a value is numeric; the typed-list and keyed-object branches copy each
element's value into the record verbatim, numeric or not — an entry is
dropped only when its whole `value` field has unrecognized shape. -/
theorem normalize_value_passthrough (d t v : Json) (key : String) :
    parse_generation_data (mkResponse [Json.obj [("datetime", d),
      ("value", Json.arr [Json.obj [("type", t), ("value", v)]])]]) =
      Except.ok [Record.mk d t v] ∧
    parse_generation_data (mkResponse [Json.obj [("datetime", d),
      ("value", Json.obj [(key, v)])]]) =
      Except.ok [Record.mk d (Json.str key) v] :=
  ⟨rfl, rfl⟩

/-- Claim C10 (confirmed): the scalar-series parser does no shape
inspection: every entry that has `datetime` and `value` fields becomes
exactly one record carrying that entry's value unchanged (null and string
values included), and an entry on which either field lookup raises makes
the whole call raise rather than be skipped. -/
theorem scalar_series_passthrough_and_strict (ps : List (Json × Json)) (vs : List Json)
    (h : ∃ v ∈ vs, (∃ e, v.getItem "datetime" = Except.error e) ∨
      (∃ e, v.getItem "value" = Except.error e)) :
    parse_indicator_data (mkResponse (ps.map (fun p =>
      Json.obj [("datetime", p.1), ("value", p.2)]))) =
      Except.ok (ps.map (fun p => IndRecord.mk p.1 p.2)) ∧
    (∃ e, parse_indicator_data (mkResponse vs) = Except.error e) := by
  constructor
  · rw [parse_indicator_data_mkResponse]
    induction ps with
    | nil => rfl
    | cons p ps ih =>
        simp [processIndicatorValues, getItem_pair_datetime, getItem_pair_value, ih,
          Bind.bind, Except.bind, Pure.pure, Except.pure]
  · rw [parse_indicator_data_mkResponse]
    induction vs with
    | nil => simp at h
    | cons v rest ih =>
        obtain ⟨w, hw, hcase⟩ := h
        rcases List.mem_cons.mp hw with rfl | hmem
        · rcases hcase with ⟨e, he⟩ | ⟨e, he⟩
          · exact ⟨e, by simp [processIndicatorValues, he, Bind.bind, Except.bind]⟩
          · cases hd : w.getItem "datetime" with
            | error e2 =>
                exact ⟨e2, by simp [processIndicatorValues, hd, Bind.bind, Except.bind]⟩
            | ok d =>
                exact ⟨e, by simp [processIndicatorValues, hd, he, Bind.bind, Except.bind]⟩
        · obtain ⟨e, he⟩ := ih ⟨w, hmem, hcase⟩
          cases hd : v.getItem "datetime" with
          | error e2 =>
              exact ⟨e2, by simp [processIndicatorValues, hd, Bind.bind, Except.bind]⟩
          | ok d =>
              cases hv : v.getItem "value" with
              | error e3 =>
                  exact ⟨e3, by simp [processIndicatorValues, hd, hv, Bind.bind, Except.bind]⟩
              | ok x =>
                  exact ⟨e, by simp [processIndicatorValues, hd, hv, he, Bind.bind, Except.bind]⟩

theorem scalar_series_passthrough_and_strict_witness :
    (∃ v ∈ [Json.obj [("datetime", Json.str "t3")]],
      (∃ e, Json.getItem v "datetime" = Except.error e) ∨
      (∃ e, Json.getItem v "value" = Except.error e)) ∧
    (parse_indicator_data (mkResponse
        ([(Json.str "t1", Json.null), (Json.str "t2", Json.str "x")].map (fun p =>
          Json.obj [("datetime", p.1), ("value", p.2)]))) =
      Except.ok [IndRecord.mk (Json.str "t1") Json.null,
        IndRecord.mk (Json.str "t2") (Json.str "x")] ∧
     (∃ e, parse_indicator_data (mkResponse [Json.obj [("datetime", Json.str "t3")]]) =
        Except.error e)) :=
  ⟨⟨Json.obj [("datetime", Json.str "t3")], List.mem_singleton.mpr rfl,
     Or.inr ⟨"KeyError", rfl⟩⟩,
   scalar_series_passthrough_and_strict
     [(Json.str "t1", Json.null), (Json.str "t2", Json.str "x")]
     [Json.obj [("datetime", Json.str "t3")]]
     ⟨Json.obj [("datetime", Json.str "t3")], List.mem_singleton.mpr rfl,
      Or.inr ⟨"KeyError", rfl⟩⟩⟩

end Reepy
